import Mathlib

/-!
Verification of the mission-planner runtime core: the MBTiles tile server
(`mission_planner/tile_server.py`) and the MAVLink GPS worker
(`mission_planner/workers/mavlink_worker.py`).

The tile server handler `TileHandler.do_GET` is embedded as a pure function
from the request path (a string), the archive contents and an archive-existence
flag to either a response or an uncaught Python exception.  The worker loop
`MavlinkGPSWorker.run` is embedded as a step function on an explicit state
(the local variables `alive`, `last_msg_time` and the flag `self.running`),
driven by a finite trace of poll iterations; each iteration supplies the
message returned by `recv_match` (if any) and the wall-clock samples taken by
the two `time.time()` calls of the loop body.  Times and decoded coordinates
are modelled as exact rationals.
-/

namespace TileServer

/-- Outcome classes of a Python handler body: either it completes (sending a
response) or it raises an uncaught exception. -/
inductive PyErr where
  /-- `ValueError` raised by `int(...)` on a non-integer segment. -/
  | valueError : PyErr
  /-- `ValueError: negative shift count` raised by `1 << z` for `z < 0`. -/
  | negativeShiftCount : PyErr
  /-- `FileNotFoundError` raised by the in-handler archive existence check. -/
  | fileNotFound : PyErr
deriving DecidableEq

/-- An HTTP response produced by the handler: `send_error(404)` or a 200
response with a content type and a body. -/
inductive Response where
  | error404 : Response
  | ok (contentType : String) (body : List Nat) : Response
deriving DecidableEq

/-- Python `s.split("/")`: split on every slash, keeping empty fragments;
splitting the empty string yields `[[]]`. -/
def splitOnSlash : List Char → List (List Char)
  | [] => [[]]
  | c :: cs =>
    if c = '/' then [] :: splitOnSlash cs
    else
      match splitOnSlash cs with
      | [] => [[c]]
      | w :: ws => (c :: w) :: ws

/-- Python `s.strip("/")`: remove leading and trailing slashes. -/
def stripSlashes (cs : List Char) : List Char :=
  ((cs.dropWhile (fun c => c = '/')).reverse.dropWhile (fun c => c = '/')).reverse

/-- The expression `self.path.strip("/").split("/")` from `do_GET`. -/
def pathParts (path : String) : List (List Char) :=
  splitOnSlash (stripSlashes path.toList)

/-- Digit-run part of Python `int(...)` on a decimal literal: at least one
digit, single underscores allowed between digits only.  The boolean argument
records whether the previous character was a digit. -/
def parseDigitsAux : List Char → Nat → Bool → Option Nat
  | [], acc, seenDigit => if seenDigit then some acc else none
  | c :: cs, acc, seenDigit =>
    if c.isDigit then parseDigitsAux cs (acc * 10 + (c.toNat - 48)) true
    else if c = '_' && seenDigit then parseDigitsAux cs acc false
    else none

/-- Python `s.strip()` (whitespace), as applied by `int(...)`. -/
def stripWhitespace (cs : List Char) : List Char :=
  ((cs.dropWhile Char.isWhitespace).reverse.dropWhile Char.isWhitespace).reverse

/-- Python `int(s)` on a decimal string: optional surrounding whitespace,
optional sign, then a digit run; `none` models the raised `ValueError`. -/
def pyInt (cs : List Char) : Option Int :=
  match stripWhitespace cs with
  | '+' :: rest => (parseDigitsAux rest 0 false).map (fun n => (n : Int))
  | '-' :: rest => (parseDigitsAux rest 0 false).map (fun n => -(n : Int))
  | rest => (parseDigitsAux rest 0 false).map (fun n => (n : Int))

/-- Python `a << b` on ints: raises `ValueError` for a negative shift count,
otherwise multiplies by `2 ^ b`. -/
def pyShl (a b : Int) : Except PyErr Int :=
  if b < 0 then Except.error PyErr.negativeShiftCount
  else Except.ok (a * 2 ^ b.toNat)

/-- One row of the `tiles` table of the MBTiles archive. -/
structure TileRow where
  zoom_level : Int
  tile_column : Int
  tile_row : Int
  tile_data : List Nat
deriving DecidableEq

/-- The SQL query of `do_GET`:
`SELECT tile_data FROM tiles WHERE zoom_level=? AND tile_column=? AND tile_row=?`
followed by `fetchone()`. -/
def queryTiles (db : List TileRow) (z x y : Int) : Option (List Nat) :=
  (db.find? (fun t => t.zoom_level == z && t.tile_column == x && t.tile_row == y)).map
    TileRow.tile_data

/-- The XYZ → TMS row translation applied by `do_GET` (line 20):
`y = (1 << z) - 1 - y`, in exact integer arithmetic, for a non-negative zoom. -/
def translate (zoom : Nat) (row : Int) : Int :=
  (2 : Int) ^ zoom - 1 - row

/-- The handler `TileHandler.do_GET`, as a function of the archive-existence flag (the
result of `MBTILES.exists()`), the archive contents and the request path.
`Except.error` models an exception escaping the handler body. -/
def do_GET (mbtilesExists : Bool) (db : List TileRow) (path : String) :
    Except PyErr Response :=
  match pathParts path with
  | [pz, px, py] =>
    match pyInt pz, pyInt px, pyInt py with
    | some z, some x, some y =>
      match pyShl 1 z with
      | Except.error e => Except.error e
      | Except.ok p =>
        if mbtilesExists = false then Except.error PyErr.fileNotFound
        else
          match queryTiles db z x (p - 1 - y) with
          | none => Except.ok Response.error404
          | some tile_data => Except.ok (Response.ok "image/png" tile_data)
    | _, _, _ => Except.error PyErr.valueError
  | _ => Except.ok Response.error404

/-- Module-level initialization of `tile_server.py` (lines 5-7): it only
computes the archive path and prints it; no existence check is performed, so
module import succeeds whether or not the archive file exists. -/
def serverStartup (_mbtilesExists : Bool) : Except PyErr Unit :=
  Except.ok ()

/-- A sample archive body (the PNG magic prefix). -/
def sampleTile : List Nat := [137, 80, 78, 71]

/-- An archive holding exactly the storage-convention tile (z=3, x=1, y=2). -/
def sampleDb : List TileRow := [⟨3, 1, 2, sampleTile⟩]

/-- An archive holding a tile at a negative column, (z=3, x=-1, y=7). -/
def sampleDbNeg : List TileRow := [⟨3, -1, 7, sampleTile⟩]

end TileServer

namespace Mavlink

/-- A received MAVLink message, with the fields `MavlinkGPSWorker.run` reads:
`get_type()` and, for GLOBAL_POSITION_INT, the raw integer `lat` (micro
degrees), `lon` (micro degrees) and `relative_alt` (millimeters). -/
structure Msg where
  get_type : String
  lat : Int
  lon : Int
  relative_alt : Int
deriving DecidableEq

/-- The Qt signals emitted by the worker: `heartbeat.emit(b)` and
`gps_update.emit(lat, lon, alt, ts, valid)`. -/
inductive Event where
  | heartbeat : Bool → Event
  | gps_update : ℚ → ℚ → ℚ → String → Bool → Event
deriving DecidableEq

/-- One iteration of the poll loop as seen from outside: the message returned
by `conn.recv_match(blocking=False)` (or `none`), the value of `time.time()` at
line 38 (`tRecv`), the value of `time.time()` at line 52 (`tCheck`), and the
formatted `datetime.now()` timestamp used for a position fix. -/
structure PollInput where
  msg : Option Msg
  tRecv : ℚ
  tCheck : ℚ
  ts : String
deriving DecidableEq

/-- The mutable state of `MavlinkGPSWorker.run`: `self.running`, the local
`alive`, and the local `last_msg_time`. -/
structure WorkerState where
  running : Bool
  alive : Bool
  last_msg_time : ℚ
deriving DecidableEq

/-- The class constant `MavlinkGPSWorker.OFFLINE_TIMEOUT_S = 10.0`. -/
def OFFLINE_TIMEOUT_S : ℚ := 10

/-- The body of the `while self.running` loop (lines 34-57), for one
iteration: message handling first, then the offline-timeout check. -/
def stepIter (s : WorkerState) (inp : PollInput) : WorkerState × List Event :=
  let p : WorkerState × List Event :=
    match inp.msg with
    | none => (s, [])
    | some m =>
      let s1 := { s with last_msg_time := inp.tRecv }
      if m.get_type = "HEARTBEAT" then
        if s1.alive = false then ({ s1 with alive := true }, [Event.heartbeat true])
        else (s1, [])
      else if m.get_type = "GLOBAL_POSITION_INT" then
        (s1, [Event.gps_update ((m.lat : ℚ) / 10000000) ((m.lon : ℚ) / 10000000)
          ((m.relative_alt : ℚ) / 1000) inp.ts true])
      else (s1, [])
  if inp.tCheck - p.1.last_msg_time > OFFLINE_TIMEOUT_S then
    if p.1.alive = true then ({ p.1 with alive := false }, p.2 ++ [Event.heartbeat false])
    else (p.1, p.2)
  else (p.1, p.2)

/-- The poll loop over a finite observation window: `self.running` is checked
before each iteration, exactly as `while self.running`. -/
def runLoop : WorkerState → List PollInput → WorkerState × List Event
  | s, [] => (s, [])
  | s, inp :: rest =>
    if s.running = true then
      ((runLoop (stepIter s inp).1 rest).1,
        (stepIter s inp).2 ++ (runLoop (stepIter s inp).1 rest).2)
    else (s, [])

/-- The method `MavlinkGPSWorker.stop`: it sets `self.running = False`. -/
def stop (s : WorkerState) : WorkerState :=
  { s with running := false }

/-- The state set up by lines 28-31 after `conn.wait_heartbeat()` returns:
`last_msg_time = now`, `alive = True` (the `running` flag keeps whatever value
it has at that moment). -/
def initState (now : ℚ) (running : Bool) : WorkerState :=
  { running := running, alive := true, last_msg_time := now }

/-- The body of `run` from the completion of the handshake wait onward: the unconditional
`self.heartbeat.emit(True)` of line 31 followed by the poll loop. -/
def runAfterHandshake (now : ℚ) (running : Bool) (inps : List PollInput) :
    WorkerState × List Event :=
  ((runLoop (initState now running) inps).1,
    Event.heartbeat true :: (runLoop (initState now running) inps).2)

end Mavlink

/-- Decidable equality of handler outcomes, for concrete evaluation. -/
instance {m a : Type} [DecidableEq m] [DecidableEq a] : DecidableEq (Except m a) := fun u v =>
  match u, v with
  | Except.error e1, Except.error e2 =>
    if h : e1 = e2 then Decidable.isTrue (by rw [h]) else Decidable.isFalse (by simp [h])
  | Except.error _, Except.ok _ => Decidable.isFalse (by simp)
  | Except.ok _, Except.error _ => Decidable.isFalse (by simp)
  | Except.ok a1, Except.ok a2 =>
    if h : a1 = a2 then Decidable.isTrue (by rw [h]) else Decidable.isFalse (by simp [h])

namespace Mavlink

lemma stepIter_none_le (s : WorkerState) (inp : PollInput) (hmsg : inp.msg = none)
    (ht : inp.tCheck - s.last_msg_time ≤ OFFLINE_TIMEOUT_S) :
    stepIter s inp = (s, []) := by
  simp [stepIter, hmsg, not_lt.mpr ht]

lemma stepIter_none_dead (s : WorkerState) (inp : PollInput) (halive : s.alive = false)
    (hmsg : inp.msg = none) :
    stepIter s inp = (s, []) := by
  simp [stepIter, hmsg, halive]

lemma stepIter_trigger (s : WorkerState) (inp : PollInput) (halive : s.alive = true)
    (hmsg : inp.msg = none) (ht : inp.tCheck - s.last_msg_time > OFFLINE_TIMEOUT_S) :
    stepIter s inp = ({ s with alive := false }, [Event.heartbeat false]) := by
  simp [stepIter, hmsg, halive, ht]

lemma stepIter_pos (s : WorkerState) (inp : PollInput) (m : Msg) (hmsg : inp.msg = some m)
    (htype : m.get_type = "GLOBAL_POSITION_INT")
    (ht : inp.tCheck - inp.tRecv ≤ OFFLINE_TIMEOUT_S) :
    stepIter s inp = ({ s with last_msg_time := inp.tRecv },
      [Event.gps_update ((m.lat : ℚ) / 10000000) ((m.lon : ℚ) / 10000000)
        ((m.relative_alt : ℚ) / 1000) inp.ts true]) := by
  simp [stepIter, hmsg, htype, not_lt.mpr ht]

lemma stepIter_hb (s : WorkerState) (inp : PollInput) (m : Msg) (hmsg : inp.msg = some m)
    (htype : m.get_type = "HEARTBEAT")
    (ht : inp.tCheck - inp.tRecv ≤ OFFLINE_TIMEOUT_S) :
    stepIter s inp =
      (if s.alive = false then
        ({ s with last_msg_time := inp.tRecv, alive := true }, [Event.heartbeat true])
       else ({ s with last_msg_time := inp.tRecv }, [])) := by
  cases h : s.alive <;> simp [stepIter, hmsg, htype, h, not_lt.mpr ht]

lemma stepIter_running (s : WorkerState) (inp : PollInput) :
    (stepIter s inp).1.running = s.running := by
  rcases hm : inp.msg with _ | m <;> simp only [stepIter, hm] <;> split_ifs <;> rfl

lemma runLoop_not_running (s : WorkerState) (inps : List PollInput) (h : s.running = false) :
    runLoop s inps = (s, []) := by
  cases inps <;> simp [runLoop, h]

lemma runLoop_cons_running (s : WorkerState) (inp : PollInput) (rest : List PollInput)
    (h : s.running = true) :
    runLoop s (inp :: rest) =
      ((runLoop (stepIter s inp).1 rest).1,
        (stepIter s inp).2 ++ (runLoop (stepIter s inp).1 rest).2) := by
  simp [runLoop, h]

lemma runLoop_none_dead (s : WorkerState) (inps : List PollInput) (halive : s.alive = false)
    (hmsgs : ∀ inp ∈ inps, inp.msg = none) :
    runLoop s inps = (s, []) := by
  induction inps with
  | nil => rfl
  | cons inp rest ih =>
    cases hr : s.running with
    | false => exact runLoop_not_running _ _ hr
    | true =>
      rw [runLoop_cons_running s inp rest hr,
        stepIter_none_dead s inp halive (hmsgs inp (List.mem_cons_self inp rest))]
      simp [ih (fun i hi => hmsgs i (List.mem_cons_of_mem inp hi))]

end Mavlink

namespace Mavlink

lemma runLoop_quiet (s : WorkerState) (inps : List PollInput)
    (hq : ∀ inp ∈ inps, inp.msg = none ∧ inp.tCheck - s.last_msg_time ≤ OFFLINE_TIMEOUT_S) :
    runLoop s inps = (s, []) := by
  induction inps with
  | nil => rfl
  | cons inp rest ih =>
    cases hr : s.running with
    | false => exact runLoop_not_running _ _ hr
    | true =>
      rw [runLoop_cons_running s inp rest hr,
        stepIter_none_le s inp (hq inp (List.mem_cons_self inp rest)).1
          (hq inp (List.mem_cons_self inp rest)).2]
      simp [ih (fun i hi => hq i (List.mem_cons_of_mem inp hi))]

lemma runLoop_pos_stream (s : WorkerState) (inps : List PollInput) (halive : s.alive = true)
    (hp : ∀ inp ∈ inps, (∃ m, inp.msg = some m ∧ m.get_type = "GLOBAL_POSITION_INT") ∧
        inp.tCheck - inp.tRecv ≤ OFFLINE_TIMEOUT_S) :
    (runLoop s inps).1.alive = true ∧
      ∀ b, Event.heartbeat b ∉ (runLoop s inps).2 := by
  induction inps generalizing s with
  | nil => exact ⟨halive, by simp [runLoop]⟩
  | cons inp rest ih =>
    cases hr : s.running with
    | false => rw [runLoop_not_running _ _ hr]; exact ⟨halive, by simp⟩
    | true =>
      obtain ⟨⟨m, hmsg, htype⟩, ht⟩ := hp inp (List.mem_cons_self inp rest)
      rw [runLoop_cons_running s inp rest hr, stepIter_pos s inp m hmsg htype ht]
      obtain ⟨ih1, ih2⟩ := ih { s with last_msg_time := inp.tRecv } halive
        (fun i hi => hp i (List.mem_cons_of_mem inp hi))
      refine ⟨ih1, ?_⟩
      intro b hb
      simp only [List.mem_append, List.mem_singleton, List.mem_cons] at hb
      rcases hb with hb | hb
      · simp at hb
      · exact ih2 b hb

end Mavlink

namespace Mavlink

lemma stepIter_other (s : WorkerState) (inp : PollInput) (m : Msg) (hmsg : inp.msg = some m)
    (h1 : ¬ m.get_type = "HEARTBEAT") (h2 : ¬ m.get_type = "GLOBAL_POSITION_INT")
    (ht : inp.tCheck - inp.tRecv ≤ OFFLINE_TIMEOUT_S) :
    stepIter s inp = ({ s with last_msg_time := inp.tRecv }, []) := by
  cases h : s.alive <;> simp [stepIter, hmsg, h1, h2, h, not_lt.mpr ht]

lemma stepIter_last_refresh (s : WorkerState) (inp : PollInput) (m : Msg)
    (hmsg : inp.msg = some m) :
    (stepIter s inp).1.last_msg_time = inp.tRecv := by
  simp only [stepIter, hmsg]
  split_ifs <;> rfl

lemma runLoop_append (s : WorkerState) (l1 l2 : List PollInput) :
    runLoop s (l1 ++ l2) =
      ((runLoop (runLoop s l1).1 l2).1,
        (runLoop s l1).2 ++ (runLoop (runLoop s l1).1 l2).2) := by
  induction l1 generalizing s with
  | nil => simp [runLoop]
  | cons inp rest ih =>
    cases hr : s.running with
    | false => simp [runLoop_not_running _ _ hr]
    | true =>
      rw [List.cons_append, runLoop_cons_running _ _ _ hr, runLoop_cons_running _ _ _ hr, ih]
      simp [List.append_assoc]

lemma rat_le_5_0 : (5 : ℚ) - 0 ≤ OFFLINE_TIMEOUT_S := by norm_num [OFFLINE_TIMEOUT_S]

lemma rat_gt_11_0 : (11 : ℚ) - 0 > OFFLINE_TIMEOUT_S := by norm_num [OFFLINE_TIMEOUT_S]

lemma rat_le_1_1 : (1 : ℚ) - 1 ≤ OFFLINE_TIMEOUT_S := by norm_num [OFFLINE_TIMEOUT_S]

end Mavlink

open TileServer Mavlink

/-- C2: a session in state Alive whose last message was observed at
`s.last_msg_time`, fed only empty poll iterations, emits nothing and keeps its
state while `now - last_msg_time ≤ 10.0`; at the first iteration whose check
time strictly exceeds the deadline it transitions to Offline, and the whole
trace contains exactly one liveness-changed(false) event (none are repeated on
later iterations). -/
theorem C2_offline_timeout (s : WorkerState) (pre post : List PollInput) (trigger : PollInput)
    (hrun : s.running = true) (halive : s.alive = true)
    (hpre : ∀ inp ∈ pre, inp.msg = none ∧ inp.tCheck - s.last_msg_time ≤ OFFLINE_TIMEOUT_S)
    (htm : trigger.msg = none)
    (htt : trigger.tCheck - s.last_msg_time > OFFLINE_TIMEOUT_S)
    (hpost : ∀ inp ∈ post, inp.msg = none) :
    (runLoop s pre).2 = [] ∧ (runLoop s pre).1 = s ∧
    (runLoop s (pre ++ trigger :: post)).2 = [Event.heartbeat false] ∧
    (runLoop s (pre ++ trigger :: post)).1.alive = false := by
  have hq := runLoop_quiet s pre hpre
  have hstep := stepIter_trigger s trigger halive htm htt
  have hdead := runLoop_none_dead { s with alive := false } post rfl hpost
  rw [runLoop_append, hq]
  refine ⟨by simp [hq], by simp [hq], ?_, ?_⟩
  · rw [runLoop_cons_running _ _ _ hrun, hstep, hdead]
    simp
  · rw [runLoop_cons_running _ _ _ hrun, hstep, hdead]

theorem C2_offline_timeout_witness :
    (runLoop ⟨true, true, 0⟩ [⟨none, 4, 5, ""⟩]).2 = [] ∧
    (runLoop ⟨true, true, 0⟩ [⟨none, 4, 5, ""⟩]).1 = ⟨true, true, 0⟩ ∧
    (runLoop ⟨true, true, 0⟩ ([⟨none, 4, 5, ""⟩] ++ ⟨none, 11, 11, ""⟩ :: [⟨none, 20, 20, ""⟩])).2
      = [Event.heartbeat false] ∧
    (runLoop ⟨true, true, 0⟩ ([⟨none, 4, 5, ""⟩] ++ ⟨none, 11, 11, ""⟩ :: [⟨none, 20, 20, ""⟩])).1.alive
      = false :=
  C2_offline_timeout ⟨true, true, 0⟩ [⟨none, 4, 5, ""⟩] [⟨none, 20, 20, ""⟩] ⟨none, 11, 11, ""⟩
    rfl rfl
    (by intro inp hi
        rw [List.mem_singleton] at hi
        subst hi
        exact ⟨rfl, rat_le_5_0⟩)
    rfl rat_gt_11_0
    (by intro inp hi
        rw [List.mem_singleton] at hi
        subst hi
        rfl)

/-- C8: after `stop()` sets `self.running = False`, the loop guard fails at the
next check, the loop terminates without executing any further iteration, and no
further event of any kind is emitted. -/
theorem C8_stop_terminates (s : WorkerState) (inps : List PollInput) :
    runLoop (stop s) inps = (stop s, []) :=
  runLoop_not_running (stop s) inps rfl

/-- C6: any received message refreshes `last_msg_time`; a HEARTBEAT message
forces the state to Alive and emits liveness-changed(true) exactly when the
previous state was Offline; while already Alive no message of any type emits a
liveness event; and a stream of GLOBAL_POSITION_INT messages spaced under the
timeout keeps the session Alive with no liveness-changed event at all.
(The timing side conditions say the check-time of an iteration does not exceed
its own receive-time by more than the timeout.) -/
theorem C6_message_liveness :
    (∀ (s : WorkerState) (inp : PollInput) (m : Msg), inp.msg = some m →
      (stepIter s inp).1.last_msg_time = inp.tRecv) ∧
    (∀ (s : WorkerState) (inp : PollInput) (m : Msg), inp.msg = some m →
      m.get_type = "HEARTBEAT" → inp.tCheck - inp.tRecv ≤ OFFLINE_TIMEOUT_S →
      (stepIter s inp).1.alive = true ∧
      ((stepIter s inp).2 = [Event.heartbeat true] ↔ s.alive = false) ∧
      ((stepIter s inp).2 = [] ↔ s.alive = true)) ∧
    (∀ (s : WorkerState) (inp : PollInput) (m : Msg), s.alive = true → inp.msg = some m →
      inp.tCheck - inp.tRecv ≤ OFFLINE_TIMEOUT_S →
      ∀ b, Event.heartbeat b ∉ (stepIter s inp).2) ∧
    (∀ (s : WorkerState) (inps : List PollInput), s.alive = true →
      (∀ inp ∈ inps, (∃ m, inp.msg = some m ∧ m.get_type = "GLOBAL_POSITION_INT") ∧
        inp.tCheck - inp.tRecv ≤ OFFLINE_TIMEOUT_S) →
      (runLoop s inps).1.alive = true ∧ ∀ b, Event.heartbeat b ∉ (runLoop s inps).2) := by
  refine ⟨fun s inp m hmsg => stepIter_last_refresh s inp m hmsg, ?_, ?_, runLoop_pos_stream⟩
  · intro s inp m hmsg htype ht
    rw [stepIter_hb s inp m hmsg htype ht]
    cases h : s.alive <;> simp [h]
  · intro s inp m halive hmsg ht b
    by_cases h1 : m.get_type = "HEARTBEAT"
    · rw [stepIter_hb s inp m hmsg h1 ht]
      simp [halive]
    · by_cases h2 : m.get_type = "GLOBAL_POSITION_INT"
      · rw [stepIter_pos s inp m hmsg h2 ht]
        simp
      · rw [stepIter_other s inp m hmsg h1 h2 ht]
        simp

theorem C6_message_liveness_witness :
    (runLoop ⟨true, true, 0⟩ [⟨some ⟨"GLOBAL_POSITION_INT", 0, 0, 0⟩, 1, 1, ""⟩]).1.alive = true ∧
    ∀ b, Event.heartbeat b ∉
      (runLoop ⟨true, true, 0⟩ [⟨some ⟨"GLOBAL_POSITION_INT", 0, 0, 0⟩, 1, 1, ""⟩]).2 :=
  C6_message_liveness.2.2.2 ⟨true, true, 0⟩ [⟨some ⟨"GLOBAL_POSITION_INT", 0, 0, 0⟩, 1, 1, ""⟩]
    rfl
    (by intro inp hi
        rw [List.mem_singleton] at hi
        subst hi
        exact ⟨⟨⟨"GLOBAL_POSITION_INT", 0, 0, 0⟩, rfl, rfl⟩, rat_le_1_1⟩)

/-- C7: a GLOBAL_POSITION_INT message, in any liveness state, makes the
iteration emit exactly one gps_update event with valid=true and the decoded
fields lat/1e7 degrees, lon/1e7 degrees, relative_alt/1e3 meters, leaving the
liveness flag unchanged; the decode sends 123456789, -987654321, 1500 to
12.3456789, -98.7654321 and 1.5 exactly. -/
theorem C7_position_decode (s : WorkerState) (inp : PollInput) (m : Msg)
    (hmsg : inp.msg = some m) (htype : m.get_type = "GLOBAL_POSITION_INT")
    (ht : inp.tCheck - inp.tRecv ≤ OFFLINE_TIMEOUT_S) :
    (stepIter s inp).2 =
      [Event.gps_update ((m.lat : ℚ) / 10000000) ((m.lon : ℚ) / 10000000)
        ((m.relative_alt : ℚ) / 1000) inp.ts true] ∧
    (stepIter s inp).1.alive = s.alive ∧
    ((123456789 : ℚ) / 10000000 = 12.3456789 ∧
      ((-987654321 : Int) : ℚ) / 10000000 = -98.7654321 ∧
      (1500 : ℚ) / 1000 = 1.5) := by
  rw [stepIter_pos s inp m hmsg htype ht]
  refine ⟨rfl, rfl, by norm_num, by norm_num, by norm_num⟩

theorem C7_position_decode_witness :
    (stepIter ⟨true, false, 0⟩
        ⟨some ⟨"GLOBAL_POSITION_INT", 123456789, -987654321, 1500⟩, 1, 1, "12:00:00"⟩).2 =
      [Event.gps_update (((123456789 : Int) : ℚ) / 10000000)
        (((-987654321 : Int) : ℚ) / 10000000) (((1500 : Int) : ℚ) / 1000) "12:00:00" true] ∧
    (stepIter ⟨true, false, 0⟩
        ⟨some ⟨"GLOBAL_POSITION_INT", 123456789, -987654321, 1500⟩, 1, 1, "12:00:00"⟩).1.alive
      = false ∧
    ((123456789 : ℚ) / 10000000 = 12.3456789 ∧
      ((-987654321 : Int) : ℚ) / 10000000 = -98.7654321 ∧
      (1500 : ℚ) / 1000 = 1.5) :=
  C7_position_decode ⟨true, false, 0⟩
    ⟨some ⟨"GLOBAL_POSITION_INT", 123456789, -987654321, 1500⟩, 1, 1, "12:00:00"⟩
    ⟨"GLOBAL_POSITION_INT", 123456789, -987654321, 1500⟩ rfl rfl rat_le_1_1

/-- C10: once the handshake wait completes, the worker initializes the session
Alive with `last_msg_time = now` and emits heartbeat(true) before polling; the
first element of the emitted trace is liveness-changed(true), and every
position-fix event sits at a strictly later index. -/
theorem C10_handshake_first_event (now : ℚ) (running : Bool) (inps : List PollInput)
    (i : Nat) (e : Event)
    (hget : (runAfterHandshake now running inps).2.get? i = some e)
    (hgps : ∃ la lo al ts v, e = Event.gps_update la lo al ts v) :
    (runAfterHandshake now running inps).2 =
      Event.heartbeat true :: (runLoop (initState now running) inps).2 ∧
    (initState now running).alive = true ∧
    (initState now running).last_msg_time = now ∧
    (runAfterHandshake now running inps).2.head? = some (Event.heartbeat true) ∧
    0 < i := by
  refine ⟨rfl, rfl, rfl, rfl, ?_⟩
  cases i with
  | zero =>
    obtain ⟨la, lo, al, ts, v, he⟩ := hgps
    rw [he] at hget
    simp [runAfterHandshake] at hget
  | succ n => exact Nat.succ_pos n

lemma c10_concrete_trace :
    (runAfterHandshake 0 true
        [⟨some ⟨"GLOBAL_POSITION_INT", 123456789, -987654321, 1500⟩, 1, 1, "12:00:00"⟩]).2 =
      [Event.heartbeat true,
        Event.gps_update (((123456789 : Int) : ℚ) / 10000000)
          (((-987654321 : Int) : ℚ) / 10000000) (((1500 : Int) : ℚ) / 1000) "12:00:00" true] := by
  simp only [runAfterHandshake]
  rw [runLoop_cons_running _ _ _ rfl,
    stepIter_pos (initState 0 true)
      ⟨some ⟨"GLOBAL_POSITION_INT", 123456789, -987654321, 1500⟩, 1, 1, "12:00:00"⟩
      ⟨"GLOBAL_POSITION_INT", 123456789, -987654321, 1500⟩ rfl rfl rat_le_1_1]
  simp [runLoop]

theorem C10_handshake_first_event_witness :
    (runAfterHandshake 0 true
        [⟨some ⟨"GLOBAL_POSITION_INT", 123456789, -987654321, 1500⟩, 1, 1, "12:00:00"⟩]).2 =
      Event.heartbeat true ::
        (runLoop (initState 0 true)
          [⟨some ⟨"GLOBAL_POSITION_INT", 123456789, -987654321, 1500⟩, 1, 1, "12:00:00"⟩]).2 ∧
    (initState 0 true).alive = true ∧
    (initState (0 : ℚ) true).last_msg_time = 0 ∧
    (runAfterHandshake 0 true
        [⟨some ⟨"GLOBAL_POSITION_INT", 123456789, -987654321, 1500⟩, 1, 1, "12:00:00"⟩]).2.head?
      = some (Event.heartbeat true) ∧
    0 < 1 :=
  C10_handshake_first_event 0 true
    [⟨some ⟨"GLOBAL_POSITION_INT", 123456789, -987654321, 1500⟩, 1, 1, "12:00:00"⟩] 1
    (Event.gps_update (((123456789 : Int) : ℚ) / 10000000)
      (((-987654321 : Int) : ℚ) / 10000000) (((1500 : Int) : ℚ) / 1000) "12:00:00" true)
    (by rw [c10_concrete_trace]
        rfl)
    ⟨_, _, _, _, _, rfl⟩

namespace TileServer

lemma do_GET_parsed (ex : Bool) (db : List TileRow) (path : String) (pz px py : List Char)
    (z x y : Int) (hp : pathParts path = [pz, px, py])
    (hz : pyInt pz = some z) (hx : pyInt px = some x) (hy : pyInt py = some y)
    (hz0 : 0 ≤ z) :
    do_GET ex db path =
      (if ex = false then Except.error PyErr.fileNotFound
       else
        match queryTiles db z x (translate z.toNat y) with
        | none => Except.ok Response.error404
        | some tile_data => Except.ok (Response.ok "image/png" tile_data)) := by
  have hshl : (1 : Int) * 2 ^ z.toNat - 1 - y = translate z.toNat y := by
    simp [translate]
  simp only [do_GET, hp, hz, hx, hy, pyShl, if_neg (not_lt.mpr hz0), hshl]

lemma do_GET_neg_shift (ex : Bool) (db : List TileRow) (path : String) (pz px py : List Char)
    (z x y : Int) (hp : pathParts path = [pz, px, py])
    (hz : pyInt pz = some z) (hx : pyInt px = some x) (hy : pyInt py = some y)
    (hzneg : z < 0) :
    do_GET ex db path = Except.error PyErr.negativeShiftCount := by
  simp only [do_GET, hp, hz, hx, hy, pyShl, if_pos hzneg]

end TileServer

/-- C1 counterexample: the three-segment path "a/b/c" has non-integer
components, yet the handler does not return a 404-class response: `int("a")`
raises an uncaught ValueError inside `do_GET`. -/
theorem C1_counterexample :
    do_GET true [] "a/b/c" = Except.error PyErr.valueError ∧
    (Except.error PyErr.valueError : Except PyErr Response) ≠ Except.ok Response.error404 := by
  exact ⟨by decide, by decide⟩

/-- C1 (amended): a path with a segment count other than three yields a 404
response with no archive lookup (the result does not depend on the archive at
all); a three-segment path with a non-integer segment makes the handler raise
ValueError before any archive lookup — no 404 response is sent in that case.
The exception escapes the handler; the surrounding HTTP server machinery, not
modelled here, is what keeps the process alive. -/
theorem C1_malformed_request (path : String) (ex : Bool) (db : List TileRow) :
    ((pathParts path).length ≠ 3 → do_GET ex db path = Except.ok Response.error404) ∧
    (∀ pz px py, pathParts path = [pz, px, py] →
      (pyInt pz = none ∨ pyInt px = none ∨ pyInt py = none) →
      do_GET ex db path = Except.error PyErr.valueError) := by
  constructor
  · intro hlen
    rcases hpp : pathParts path with _ | ⟨a, as⟩
    · simp [do_GET, hpp]
    rcases as with _ | ⟨b, bs⟩
    · simp [do_GET, hpp]
    rcases bs with _ | ⟨c, cs⟩
    · simp [do_GET, hpp]
    rcases cs with _ | ⟨d, ds⟩
    · exact absurd (by rw [hpp]; rfl) hlen
    · simp [do_GET, hpp]
  · intro pz px py hpp hnone
    simp only [do_GET, hpp]
    rcases hz2 : pyInt pz with _ | z <;> rcases hx2 : pyInt px with _ | x <;>
      rcases hy2 : pyInt py with _ | y <;> simp_all

theorem C1_malformed_request_witness :
    do_GET true [] "1/2" = Except.ok Response.error404 ∧
    do_GET true sampleDb "a/b/c" = Except.error PyErr.valueError :=
  ⟨(C1_malformed_request "1/2" true []).1 (by decide),
    (C1_malformed_request "a/b/c" true sampleDb).2 ['a'] ['b'] ['c'] (by decide)
      (Or.inl (by decide))⟩

/-- C3: the row translation `(2^z - 1) - r` of `do_GET` is an involution on
integers — in particular on every valid row `0 ≤ r < 2^z` — and swaps the
boundary rows 0 and `2^z - 1`, in exact integer arithmetic. -/
theorem C3_translate_involution (zoom : Nat) (row : Int)
    (h0 : 0 ≤ row) (h1 : row < 2 ^ zoom) :
    TileServer.translate zoom (TileServer.translate zoom row) = row ∧
    TileServer.translate zoom 0 = 2 ^ zoom - 1 ∧
    TileServer.translate zoom (2 ^ zoom - 1) = 0 := by
  unfold TileServer.translate
  exact ⟨by ring, by ring, by ring⟩

theorem C3_translate_involution_witness :
    TileServer.translate 3 (TileServer.translate 3 5) = 5 ∧
    TileServer.translate 3 0 = 2 ^ 3 - 1 ∧
    TileServer.translate 3 (2 ^ 3 - 1) = 0 :=
  C3_translate_involution 3 5 (by decide) (by decide)

/-- C4: for a three-integer path (z, col, row), row top-origin, the server
queries the archive at the translated coordinate (z, col, 2^z - 1 - row): a
stored tile is served as status 200 with the stored bytes and media type
image/png, a missing tile yields 404.  With an archive holding only
(z=3, x=1, y=2), requesting (3, 1, 5) serves that tile and (3, 1, 0) gives 404. -/
theorem C4_tile_hit_miss (db : List TileRow) (path : String) (pz px py : List Char)
    (z x y : Int) (hp : pathParts path = [pz, px, py])
    (hz : pyInt pz = some z) (hx : pyInt px = some x) (hy : pyInt py = some y)
    (hz0 : 0 ≤ z) :
    (∀ data, queryTiles db z x (TileServer.translate z.toNat y) = some data →
      do_GET true db path = Except.ok (Response.ok "image/png" data)) ∧
    (queryTiles db z x (TileServer.translate z.toNat y) = none →
      do_GET true db path = Except.ok Response.error404) ∧
    do_GET true sampleDb "3/1/5" = Except.ok (Response.ok "image/png" sampleTile) ∧
    do_GET true sampleDb "3/1/0" = Except.ok Response.error404 := by
  have h := do_GET_parsed true db path pz px py z x y hp hz hx hy hz0
  rw [if_neg (by decide)] at h
  refine ⟨?_, ?_, by decide, by decide⟩
  · intro data hq
    rw [h, hq]
  · intro hq
    rw [h, hq]

theorem C4_tile_hit_miss_witness :
    (∀ data, queryTiles sampleDb 3 1 (TileServer.translate (Int.toNat 3) 5) = some data →
      do_GET true sampleDb "3/1/5" = Except.ok (Response.ok "image/png" data)) ∧
    (queryTiles sampleDb 3 1 (TileServer.translate (Int.toNat 3) 5) = none →
      do_GET true sampleDb "3/1/5" = Except.ok Response.error404) ∧
    do_GET true sampleDb "3/1/5" = Except.ok (Response.ok "image/png" sampleTile) ∧
    do_GET true sampleDb "3/1/0" = Except.ok Response.error404 :=
  C4_tile_hit_miss sampleDb "3/1/5" ['3'] ['1'] ['5'] 3 1 5 (by decide) rfl rfl rfl (by decide)

/-- C5 counterexample: with the archive file absent, module startup still
succeeds (no existence check happens at startup), and the absence surfaces only
as a FileNotFoundError raised inside the handler while serving a request. -/
theorem C5_counterexample :
    serverStartup false = Except.ok () ∧
    do_GET false [] "3/1/5" = Except.error PyErr.fileNotFound :=
  ⟨rfl, by decide⟩

/-- C5 (amended): absence of the archive file is not a startup failure; it is
detected per request: module initialization succeeds regardless, and every
request whose path parses to three integers with non-negative zoom raises
FileNotFoundError inside the handler, before any archive lookup. -/
theorem C5_archive_absent (db : List TileRow) (path : String) (pz px py : List Char)
    (z x y : Int) (hp : pathParts path = [pz, px, py])
    (hz : pyInt pz = some z) (hx : pyInt px = some x) (hy : pyInt py = some y)
    (hz0 : 0 ≤ z) :
    serverStartup false = Except.ok () ∧
    do_GET false db path = Except.error PyErr.fileNotFound := by
  refine ⟨rfl, ?_⟩
  rw [do_GET_parsed false db path pz px py z x y hp hz hx hy hz0]
  rfl

theorem C5_archive_absent_witness :
    serverStartup false = Except.ok () ∧
    do_GET false sampleDb "3/1/5" = Except.error PyErr.fileNotFound :=
  C5_archive_absent sampleDb "3/1/5" ['3'] ['1'] ['5'] 3 1 5 (by decide) rfl rfl rfl (by decide)

/-- C9 (implicit): integer path segments may be signed: with a negative column
or row the request is not rejected as malformed and the archive lookup does
happen, at the translated coordinate; with a negative zoom the handler has no
404 branch at all — `1 << z` raises an uncaught ValueError (negative shift
count) before the existence check and the archive lookup. -/
theorem C9_signed_segments (db : List TileRow) (ex : Bool) (path : String)
    (pz px py : List Char) (z x y : Int)
    (hp : pathParts path = [pz, px, py])
    (hz : pyInt pz = some z) (hx : pyInt px = some x) (hy : pyInt py = some y) :
    (0 ≤ z →
      do_GET true db path ≠ Except.error PyErr.valueError ∧
      (∀ data, queryTiles db z x (TileServer.translate z.toNat y) = some data →
        do_GET true db path = Except.ok (Response.ok "image/png" data)) ∧
      (queryTiles db z x (TileServer.translate z.toNat y) = none →
        do_GET true db path = Except.ok Response.error404)) ∧
    (z < 0 → do_GET ex db path = Except.error PyErr.negativeShiftCount) := by
  constructor
  · intro hz0
    have h := do_GET_parsed true db path pz px py z x y hp hz hx hy hz0
    rw [if_neg (by decide)] at h
    refine ⟨?_, ?_, ?_⟩
    · rw [h]
      rcases hq : queryTiles db z x (TileServer.translate z.toNat y) <;> simp [hq]
    · intro data hq
      rw [h, hq]
    · intro hq
      rw [h, hq]
  · intro hzneg
    exact do_GET_neg_shift ex db path pz px py z x y hp hz hx hy hzneg

theorem C9_signed_segments_witness :
    (do_GET true sampleDbNeg "3/-1/0" ≠ Except.error PyErr.valueError ∧
      (∀ data, queryTiles sampleDbNeg 3 (-1) (TileServer.translate (Int.toNat 3) 0) = some data →
        do_GET true sampleDbNeg "3/-1/0" = Except.ok (Response.ok "image/png" data)) ∧
      (queryTiles sampleDbNeg 3 (-1) (TileServer.translate (Int.toNat 3) 0) = none →
        do_GET true sampleDbNeg "3/-1/0" = Except.ok Response.error404)) ∧
    do_GET true [] "-1/0/0" = Except.error PyErr.negativeShiftCount :=
  ⟨(C9_signed_segments sampleDbNeg true "3/-1/0" ['3'] ['-', '1'] ['0'] 3 (-1) 0
      (by decide) rfl rfl rfl).1 (by decide),
    (C9_signed_segments [] true "-1/0/0" ['-', '1'] ['0'] ['0'] (-1) 0 0
      (by decide) rfl rfl rfl).2 (by decide)⟩
